import Mathlib

/-!
Verification of the plan-orchestration core of the `phone_unlock` repository.

The development shallowly embeds the Python sources:
  * `src/backend/agents/strategic_intelligence.py` (strategy planner),
  * `src/backend/agents/deep_agents.py` (orchestrator and worker pool),
  * `src/backend/service/self-healing.py` (recovery classifier/executor).

Python dictionaries are embedded as structures carrying exactly the fields the
embedded code reads; `dict.get(k, default)` on a possibly-missing field is
embedded as an `Option` field read with `Option.getD`.  Python string
operations used by the code (`sub in s`, `s.lower()`) are embedded below as
`pyIn` and `pyLower` (the strings involved are ASCII, where Python `lower`
agrees with per-character ASCII lowering).

Python float literals appear only as fixed probability/confidence constants
that the code compares but never computes with, so they are embedded
order-preservingly at percent scale as naturals (`Prob`): `0.85` is embedded
as `85`, `0.7` as `70`, and so on.

Step execution by the worker agents is I/O against the device transport
(`DeepAgent._perform_task` sleeps and talks to the device), so the
orchestrator is embedded parameterised over an oracle giving the result of
each dispatch (step index × attempt index); everything the orchestrator
itself computes - retry control flow, self-healing, aggregation - is embedded
concretely from the source.
-/

namespace PhoneUnlock

/-- Probability/confidence constants at percent scale: the Python float
`0.85` is embedded as `85`.  The code only ever compares these constants,
so the percent-scale embedding preserves all behaviour. -/
abbrev Prob := Nat

/-- Does the character list `t` start with the character list `pat`? -/
def charsStartWith : List Char → List Char → Bool
  | _, [] => true
  | [], _ :: _ => false
  | a :: as, p :: ps => a == p && charsStartWith as ps

/-- Does the character list `t` contain `pat` as a contiguous run? -/
def charsContain : List Char → List Char → Bool
  | [], pat => pat == []
  | c :: rest, pat => charsStartWith (c :: rest) pat || charsContain rest pat

/-- Embedding of Python's substring test `sub in s`. -/
def pyIn (sub s : String) : Bool :=
  charsContain s.data sub.data

/-- Embedding of Python's `s.lower()` on the ASCII strings this code uses. -/
def pyLower (s : String) : String :=
  ⟨s.data.map Char.toLower⟩

/-- `class UnlockStrategy(Enum)` from `strategic_intelligence.py`, in
declaration order (the order of `list(UnlockStrategy)`). -/
inductive UnlockStrategy where
  | direct_bypass
  | vulnerability_exploit
  | recovery_mode
  | bootloader_access
  | custom_tool
  | combination
deriving DecidableEq, Fintype, Repr

/-- `list(UnlockStrategy)`: the members in declaration order. -/
def allStrategies : List UnlockStrategy :=
  [.direct_bypass, .vulnerability_exploit, .recovery_mode,
   .bootloader_access, .custom_tool, .combination]

/-- The fields of the device-analysis dictionary that the planner reads:
`analysis.get("lock_detection", {}).get("locks", [])` and
`analysis.get("device_identification", {}).get("manufacturer", "")`.
`none` embeds a missing field (the `.get` default then applies). -/
structure DeviceAnalysis where
  locks : Option (List String)
  manufacturer : Option String
deriving DecidableEq, Repr

/-- `StrategicIntelligence._select_optimal_strategy` (lines 108-127).
The `try` body is pure dictionary reads with defaults, so the
`except` fallback (also `DIRECT_BYPASS`) is dead. -/
def selectOptimalStrategy (a : DeviceAnalysis) : UnlockStrategy :=
  let locks := a.locks.getD []
  let device_type := pyLower (a.manufacturer.getD "")
  if locks.contains "bootloader_lock" && device_type == "samsung" then
    .bootloader_access
  else if locks.contains "frp_lock" && device_type == "google" then
    .vulnerability_exploit
  else if locks.contains "icloud_lock" then
    .custom_tool
  else if locks.length > 2 then
    .combination
  else
    .direct_bypass

/-- A step dictionary.  The orchestrator reads only `step.get("type", "")`;
the step generators of the planner all return `[]` (they are stubs in the
source), so no other field is ever produced or read by the embedded code. -/
structure Step where
  type : String
deriving DecidableEq, Repr

/-- `_generate_direct_bypass_steps` (stub in the source: returns `[]`). -/
def generateDirectBypassSteps (_ : DeviceAnalysis) : List Step := []

/-- `_generate_vulnerability_steps` (stub in the source: returns `[]`). -/
def generateVulnerabilitySteps (_ : DeviceAnalysis) : List Step := []

/-- `_generate_bootloader_steps` (stub in the source: returns `[]`). -/
def generateBootloaderSteps (_ : DeviceAnalysis) : List Step := []

/-- `_generate_custom_tool_steps` (stub in the source: returns `[]`). -/
def generateCustomToolSteps (_ : DeviceAnalysis) : List Step := []

/-- `_generate_combination_steps` (stub in the source: returns `[]`). -/
def generateCombinationSteps (_ : DeviceAnalysis) : List Step := []

/-- `_generate_alternative_steps` (stub in the source: returns `[]`). -/
def generateAlternativeSteps (_ : DeviceAnalysis) (_ : UnlockStrategy) :
    List Step := []

/-- `StrategicIntelligence._generate_unlock_steps` (lines 129-145): dispatch
on the selected strategy; `steps` stays `[]` when no branch matches
(`RECOVERY_MODE` has no branch). -/
def generateUnlockSteps (a : DeviceAnalysis) : List Step :=
  match selectOptimalStrategy a with
  | .direct_bypass => generateDirectBypassSteps a
  | .vulnerability_exploit => generateVulnerabilitySteps a
  | .bootloader_access => generateBootloaderSteps a
  | .custom_tool => generateCustomToolSteps a
  | .combination => generateCombinationSteps a
  | .recovery_mode => []

/-- `_calculate_strategy_success` (stub in the source: returns `0.7`). -/
def calculateStrategySuccess (_ : DeviceAnalysis) (_ : UnlockStrategy) : Prob :=
  70

/-- `_assess_strategy_risk` (stub in the source: returns `"medium"`). -/
def assessStrategyRisk (_ : DeviceAnalysis) (_ : UnlockStrategy) : String :=
  "medium"

/-- Insertion step of a stable descending sort by a probability key: Python's
`sorted(l, key=key, reverse=True)` keeps equal-key elements in their
original order and puts larger keys first. -/
def insertByDesc (key : α → Prob) (x : α) : List α → List α
  | [] => [x]
  | y :: ys =>
      if key x < key y then y :: insertByDesc key x ys
      else x :: y :: ys

/-- Stable descending sort by a probability key, embedding
`sorted(l, key=key, reverse=True)`. -/
def sortByDesc (key : α → Prob) : List α → List α
  | [] => []
  | x :: xs => insertByDesc key x (sortByDesc key xs)

/-- Is the list weakly descending under the given key (each adjacent pair in
order)? -/
def descPairs (key : α → Prob) : List α → Bool
  | [] => true
  | [_] => true
  | x :: y :: rest => decide (key y ≤ key x) && descPairs key (y :: rest)

/-- One entry of `_prepare_fallback_strategies`' result list. -/
structure Fallback where
  strategy : UnlockStrategy
  activation_condition : String
  steps : List Step
  success_probability : Prob
deriving DecidableEq, Repr

/-- `StrategicIntelligence._prepare_fallback_strategies` (lines 175-191):
all strategies except the primary, truncated to the first two in
enumeration order, then sorted by descending success probability. -/
def prepareFallbackStrategies (a : DeviceAnalysis) : List Fallback :=
  let primary := selectOptimalStrategy a
  let alternative_strategies := allStrategies.filter (fun s => s != primary)
  let fallbacks := (alternative_strategies.take 2).map fun s =>
    { strategy := s
      activation_condition := "primary_strategy_failure"
      steps := generateAlternativeSteps a s
      success_probability := calculateStrategySuccess a s }
  sortByDesc (fun f => f.success_probability) fallbacks

/-- One entry of `get_alternatives`' result list. -/
structure Alternative where
  strategy : UnlockStrategy
  steps : List Step
  success_probability : Prob
  risk_level : String
deriving DecidableEq, Repr

/-- `StrategicIntelligence.get_alternatives` (lines 82-106), parameterised
over the device analysis that `_get_device_analysis` supplies (the analysis
source is an external collaborator).  `all_strategies.remove(primary)`
removes the first occurrence, embedded as `List.erase`; the whole remaining
list is sorted by descending success probability and returned. -/
def getAlternatives (a : DeviceAnalysis) : List Alternative :=
  let primary := selectOptimalStrategy a
  let all_strategies := allStrategies.erase primary
  let alternatives := all_strategies.map fun s =>
    { strategy := s
      steps := generateAlternativeSteps a s
      success_probability := calculateStrategySuccess a s
      risk_level := assessStrategyRisk a s }
  sortByDesc (fun alt => alt.success_probability) alternatives

/-- The risk dictionary built by `_assess_risks`. -/
structure RiskAssessment where
  data_loss_probability : Prob
  brick_probability : Prob
  warranty_void : Bool
  security_risks : List String
  recommendations : List String
deriving DecidableEq, Repr

/-- `StrategicIntelligence._assess_risks` (lines 147-173).  Note the
manufacturer is compared without lowercasing here, unlike strategy
selection; `_identify_security_risks` and `_generate_risk_recommendations`
are stubs returning `[]`. -/
def assessRisks (a : DeviceAnalysis) : RiskAssessment :=
  let device_type := a.manufacturer.getD ""
  let locks := a.locks.getD []
  let brick : Prob := if locks.contains "bootloader_lock" then 30 else 0
  let dataLoss : Prob :=
    if locks.contains "frp_lock" && device_type == "samsung" then 10 else 0
  { data_loss_probability := dataLoss
    brick_probability := brick
    warranty_void := true
    security_risks := []
    recommendations := [] }

/-- The plan dictionary built by `create_unlock_plan`. -/
structure Plan where
  device_id : String
  strategy : UnlockStrategy
  steps : List Step
  fallback_strategies : List Fallback
  risk_assessment : RiskAssessment
  estimated_time : String
  success_probability : Prob
deriving DecidableEq, Repr

/-- `StrategicIntelligence.create_unlock_plan` (lines 38-58), parameterised
over the device analysis supplied by the external analysis source
(`_get_device_analysis`).  `_estimate_completion_time` and
`_calculate_success_probability` are stubs returning `"5-10 minutes"` and
`0.85`.  The body cannot raise, so the `except`/re-raise path is dead:
plan creation always returns a plan. -/
def createUnlockPlan (device_id : String) (a : DeviceAnalysis) : Plan :=
  { device_id := device_id
    strategy := selectOptimalStrategy a
    steps := generateUnlockSteps a
    fallback_strategies := prepareFallbackStrategies a
    risk_assessment := assessRisks a
    estimated_time := "5-10 minutes"
    success_probability := 85 }

/-- The analysis dictionary built by `SelfHealingSystem._analyze_error`. -/
structure RecoveryAnalysis where
  can_recover : Bool
  method : String
  confidence : Prob
  estimated_time : String
  manual_suggestions : List String
deriving DecidableEq, Repr

/-- `SelfHealingSystem._analyze_error` (`self-healing.py`, lines 69-129):
priority-ordered substring matches over the error type and message;
`context` is accepted but never inspected. -/
def analyzeError (error_type : String) (_context : String) (message : String) :
    RecoveryAnalysis :=
  if pyIn "USB" error_type || pyIn "usb" (pyLower message) then
    { can_recover := true, method := "usb_connection_reset",
      confidence := 85, estimated_time := "30 seconds",
      manual_suggestions := [] }
  else if pyIn "driver" (pyLower message) || pyIn "permission" (pyLower message) then
    { can_recover := true, method := "driver_reinstallation",
      confidence := 75, estimated_time := "2 minutes",
      manual_suggestions := [] }
  else if pyIn "timeout" (pyLower message) || pyIn "connection" (pyLower message) then
    { can_recover := true, method := "communication_retry",
      confidence := 90, estimated_time := "1 minute",
      manual_suggestions := [] }
  else if pyIn "security" (pyLower message) || pyIn "lock" (pyLower message) then
    { can_recover := true, method := "alternative_unlock_method",
      confidence := 65, estimated_time := "5 minutes",
      manual_suggestions := [] }
  else
    { can_recover := true, method := "generic_retry",
      confidence := 50, estimated_time := "1 minute",
      manual_suggestions :=
        ["Check device connection", "Restart the application",
         "Verify device compatibility"] }

/-- The result dictionary of `SelfHealingSystem._execute_recovery`. -/
structure RecoveryResult where
  success : Bool
  recovered : Bool
  action : String
  details : String
  recovery_method : String
  confidence : Prob
deriving DecidableEq, Repr

/-- `SelfHealingSystem._execute_recovery` (lines 131-160): dispatch on the
method name to `_reset_usb_connection`, `_reinstall_drivers`,
`_retry_communication`, `_try_alternative_method` or `_generic_retry`,
each of which returns `success=True, recovered=True` with a fixed
action/details pair; the method name and confidence are copied in. -/
def executeRecovery (plan : RecoveryAnalysis) : RecoveryResult :=
  let base :=
    if plan.method == "usb_connection_reset" then
      ("USB connection reset", "USB ports reset and reinitialized")
    else if plan.method == "driver_reinstallation" then
      ("Driver reinstallation", "Device drivers reinstalled successfully")
    else if plan.method == "communication_retry" then
      ("Communication retry", "Communication reestablished after retry")
    else if plan.method == "alternative_unlock_method" then
      ("Alternative method execution",
       "Alternative unlock method applied successfully")
    else
      ("Generic retry", "Operation successful after retry")
  { success := true, recovered := true, action := base.1, details := base.2,
    recovery_method := plan.method, confidence := plan.confidence }

/-- Outcome of `SelfHealingSystem.handle_error`: either the result of an
executed recovery, or the literal `"No automatic recovery method
available"` dictionary of the `else` branch. -/
inductive HandleOutcome where
  | recovered (result : RecoveryResult)
  | noMethod (suggestions : List String)
deriving DecidableEq, Repr

/-- Is the outcome the `"No automatic recovery method available"` branch? -/
def isNoMethod : HandleOutcome → Bool
  | .noMethod _ => true
  | .recovered _ => false

/-- `SelfHealingSystem.handle_error` (lines 27-67), after extraction of the
error type and message from the exception.  Incident logging is
observability only and is not modelled; the embedded body cannot raise,
so the outer `except` branch is dead. -/
def handleError (error_type context message : String) : HandleOutcome :=
  let recovery_plan := analyzeError error_type context message
  if recovery_plan.can_recover then
    .recovered (executeRecovery recovery_plan)
  else
    .noMethod recovery_plan.manual_suggestions

/-- The fields of a step-result dictionary that the orchestrator reads:
`result.get("success", False)` and `result.get("error", "")`. -/
structure StepResult where
  success : Bool
  error : String
deriving DecidableEq, Repr

/-- The recovery-plan dictionary built by `DeepAgents._analyze_failure`. -/
structure DARecoveryPlan where
  can_recover : Bool
  recovery_method : String
  alternative_approach : String
deriving DecidableEq, Repr

/-- `DeepAgents._analyze_failure` (`deep_agents.py`, lines 172-195): only
error texts containing `"usb"` or `"vulnerability"` (case-insensitively)
are classified as recoverable. -/
def analyzeFailure (result : StepResult) : DARecoveryPlan :=
  if pyIn "usb" (pyLower result.error) then
    { can_recover := true, recovery_method := "usb_driver_reset",
      alternative_approach := "alternative_usb_protocol" }
  else if pyIn "vulnerability" (pyLower result.error) then
    { can_recover := true, recovery_method := "alternative_exploit",
      alternative_approach := "different_payload" }
  else
    { can_recover := false, recovery_method := "",
      alternative_approach := "" }

/-- The result dictionary of `DeepAgents._trigger_self_healing` /
`DeepAgents._execute_recovery_plan`. -/
structure HealResult where
  recovered : Bool
  recovery_method : String
  recovery_time : String
  reason : String
deriving DecidableEq, Repr

/-- `DeepAgents._execute_recovery_plan` (lines 197-205): always reports
`recovered=True`. -/
def executeRecoveryPlan (plan : DARecoveryPlan) : HealResult :=
  { recovered := true, recovery_method := plan.recovery_method,
    recovery_time := "2 seconds", reason := "" }

/-- `DeepAgents._trigger_self_healing` (lines 159-170): run
`_execute_recovery_plan` when the failure analysis says it can recover,
otherwise report `recovered=False`. -/
def triggerSelfHealing (result : StepResult) : HealResult :=
  let recovery_plan := analyzeFailure result
  if recovery_plan.can_recover then
    executeRecoveryPlan recovery_plan
  else
    { recovered := false, recovery_method := "", recovery_time := "",
      reason := "No recovery method available" }

/-- One entry of the orchestrator's `results` list: either a plain
step-result dictionary appended after an attempt, or the
`{"retry_result": result}` wrapper appended after a retry. -/
inductive ResultEntry where
  | plain (r : StepResult)
  | retryEntry (r : StepResult)
deriving DecidableEq, Repr

/-- `r.get("success", False)` on a results-list entry as the final
aggregation reads it, restricted by the Python filter
`if "retry_result" not in r`: wrapped retry entries are skipped, which in
an `all(...)` is the same as contributing `True`. -/
def entryCountsSuccess : ResultEntry → Bool
  | .plain r => r.success
  | .retryEntry _ => true

/-- How many entries of a results list are retry wrappers. -/
def countRetries (l : List ResultEntry) : Nat :=
  (l.filter fun e =>
    match e with
    | .retryEntry _ => true
    | .plain _ => false).length

/-- The loop body of `DeepAgents.execute_unlock_plan` for one step, given
the oracle `e : Nat → StepResult` for that step's dispatch outcomes
(`e 0` = first attempt, `e 1` = retry): append the first result; if it
failed and self-healing reports `recovered`, dispatch once more and append
the wrapped retry result. -/
def runStep (e : Nat → StepResult) : List ResultEntry :=
  let r := e 0
  if r.success then [.plain r]
  else if (triggerSelfHealing r).recovered then
    [.plain r, .retryEntry (e 1)]
  else
    [.plain r]

/-- The orchestrator loop over step indices `i, i+1, ..., i+n-1`. -/
def execStepsFrom (exec : Nat → Nat → StepResult) (i : Nat) : Nat → List ResultEntry
  | 0 => []
  | n + 1 => runStep (exec i) ++ execStepsFrom exec (i + 1) n

/-- The report dictionary returned by `DeepAgents.execute_unlock_plan`. -/
structure ExecReport where
  success : Bool
  steps_executed : Nat
  detailed_results : List ResultEntry
  final_status : String
deriving DecidableEq, Repr

/-- `DeepAgents.execute_unlock_plan` (lines 105-132), parameterised over the
dispatch oracle `exec` (`exec i a` is the step-result of attempt `a` of the
step at index `i`; dispatch itself is device I/O).  The aggregation is the
source's `all(r.get("success", False) for r in results if "retry_result"
not in r)`. -/
def executeUnlockPlan (steps : List Step) (exec : Nat → Nat → StepResult) :
    ExecReport :=
  let results := execStepsFrom exec 0 steps.length
  let success := results.all entryCountsSuccess
  { success := success
    steps_executed := results.length
    detailed_results := results
    final_status := if success then "unlocked" else "partially_locked" }

/-- The overall-success rule as the specification words it (§4.4): the AND
over each step's first-attempt result, excluding first attempts that were
superseded by a successful retry.  Stated over the same oracle as
`executeUnlockPlan`, for comparison with the implementation. -/
def specOverallSuccess (steps : List Step) (exec : Nat → Nat → StepResult) :
    Bool :=
  (List.range steps.length).all fun i =>
    let first := exec i 0
    let retried := !first.success && (triggerSelfHealing first).recovered
    let superseded := retried && (exec i 1).success
    superseded || first.success

/-- The status field of a deep agent after `DeepAgent.execute_task`
(`deep_agents.py`, lines 19-28) runs a task, together with whether the
task body was actually executed and whether the exception was re-raised.
The method never reads the agent's current status: it unconditionally sets
`"working"`, runs the task, and leaves the status at `"completed"` or
`"error"`. -/
structure AgentAfter where
  status : String
  executed : Bool
  raised : Bool
deriving DecidableEq, Repr

/-- `DeepAgent.execute_task`, as a function of the agent's status before the
call and of whether `_perform_task` succeeds or raises. -/
def executeTask (_statusBefore : String) (performOk : Bool) : AgentAfter :=
  if performOk then
    { status := "completed", executed := true, raised := false }
  else
    { status := "error", executed := true, raised := true }

/-- A device analysis with manufacturer `samsung` and exactly the
`bootloader_lock` lock (Scenario A of the specification). -/
def analysisSamsungBootloader : DeviceAnalysis :=
  { locks := some ["bootloader_lock"], manufacturer := some "samsung" }

/-- A device analysis with manufacturer `Samsung` (mixed case) and several
locks besides `bootloader_lock`. -/
def analysisSamsungMixed : DeviceAnalysis :=
  { locks := some ["frp_lock", "bootloader_lock", "icloud_lock"],
    manufacturer := some "Samsung" }

/-- A device analysis whose dictionaries are present but empty, as produced
by the stubbed `_get_device_analysis`. -/
def analysisEmptyDicts : DeviceAnalysis :=
  { locks := some [], manufacturer := some "" }

/-- A device analysis lacking both the detected-lock list and the
manufacturer field. -/
def analysisMissingFields : DeviceAnalysis :=
  { locks := none, manufacturer := none }

/-- A device analysis with a manufacturer but no detected-lock list. -/
def analysisNoLocks : DeviceAnalysis :=
  { locks := none, manufacturer := some "samsung" }

/-- A step of type `usb_communication`. -/
def usbStep : Step :=
  { type := "usb_communication" }

/-- A dispatch oracle: every step's first attempt fails with a usb-kind
error and every retry succeeds. -/
def usbFailThenPass : Nat → Nat → StepResult :=
  fun _ attempt =>
    if attempt = 0 then { success := false, error := "usb handshake failed" }
    else { success := true, error := "" }

/-- A per-step dispatch oracle whose every attempt fails with a
timeout-kind error (text matching no earlier recovery-classification
branch). -/
def timeoutFail : Nat → StepResult :=
  fun _ => { success := false, error := "operation timeout" }

/-- The fallback entry built for `DIRECT_BYPASS` by
`_prepare_fallback_strategies`. -/
def fallbackDirectBypass : Fallback :=
  { strategy := .direct_bypass, activation_condition := "primary_strategy_failure",
    steps := [], success_probability := 70 }

/-! ## Helper lemmas -/

theorem insertByDesc_of_key_eq (key : α → Prob) (c : Prob) (x : α)
    (l : List α) (hx : key x = c) (hl : ∀ y ∈ l, key y = c) :
    insertByDesc key x l = x :: l := by
  cases l with
  | nil => rfl
  | cons y ys =>
      have hy : key y = c := hl y (by simp)
      have : ¬ key x < key y := by
        rw [hx, hy]
        exact lt_irrefl c
      simp [insertByDesc, this]

theorem sortByDesc_of_key_eq (key : α → Prob) (c : Prob) :
    ∀ l : List α, (∀ y ∈ l, key y = c) → sortByDesc key l = l := by
  intro l
  induction l with
  | nil => intro _; rfl
  | cons x xs ih =>
      intro h
      have hxs : sortByDesc key xs = xs := ih fun y hy => h y (by simp [hy])
      rw [sortByDesc, hxs,
        insertByDesc_of_key_eq key c x xs (h x (by simp))
          fun y hy => h y (by simp [hy])]

theorem descPairs_of_key_eq (key : α → Prob) (c : Prob) :
    ∀ l : List α, (∀ y ∈ l, key y = c) → descPairs key l = true := by
  intro l
  induction l with
  | nil => intro _; rfl
  | cons x xs ih =>
      intro h
      cases xs with
      | nil => rfl
      | cons z zs =>
          have h1 : key z ≤ key x := by
            rw [h z (by simp), h x (by simp)]
          simp [descPairs, h1]
          exact ih fun y hy => h y (by simp [hy])

theorem mem_take_two_filter_ne (p s : UnlockStrategy)
    (h : s ∈ (allStrategies.filter (fun t => t != p)).take 2) : s ≠ p := by
  revert h
  revert p s
  decide

theorem length_take_two_filter_ne (p : UnlockStrategy) :
    ((allStrategies.filter (fun t => t != p)).take 2).length ≤ 2 := by
  revert p
  decide

theorem mem_erase_allStrategies_ne (p s : UnlockStrategy)
    (h : s ∈ allStrategies.erase p) : s ≠ p := by
  revert h
  revert p s
  decide

theorem mem_erase_allStrategies_of_ne (p s : UnlockStrategy) (h : s ≠ p) :
    s ∈ allStrategies.erase p := by
  revert h
  revert p s
  decide

theorem length_erase_allStrategies (p : UnlockStrategy) :
    (allStrategies.erase p).length = 5 := by
  revert p
  decide

theorem prepareFallbackStrategies_eq (a : DeviceAnalysis) :
    prepareFallbackStrategies a =
      ((allStrategies.filter (fun s => s != selectOptimalStrategy a)).take 2).map
        fun s =>
          { strategy := s
            activation_condition := "primary_strategy_failure"
            steps := []
            success_probability := 70 } := by
  simp only [prepareFallbackStrategies]
  apply sortByDesc_of_key_eq _ 70
  intro y hy
  obtain ⟨s, -, rfl⟩ := List.mem_map.mp hy
  rfl

theorem getAlternatives_eq (a : DeviceAnalysis) :
    getAlternatives a =
      (allStrategies.erase (selectOptimalStrategy a)).map
        fun s =>
          { strategy := s
            steps := []
            success_probability := 70
            risk_level := "medium" } := by
  simp only [getAlternatives]
  apply sortByDesc_of_key_eq _ 70
  intro y hy
  obtain ⟨s, -, rfl⟩ := List.mem_map.mp hy
  rfl

theorem triggerSelfHealing_recovered_imp_can_recover (r : StepResult)
    (h : (triggerSelfHealing r).recovered = true) :
    (analyzeFailure r).can_recover = true := by
  by_contra hc
  rw [Bool.not_eq_true] at hc
  rw [triggerSelfHealing, hc] at h
  simp at h

theorem runStep_all_entries (e : Nat → StepResult) :
    (runStep e).all entryCountsSuccess = (e 0).success := by
  cases h : (e 0).success with
  | true => simp [runStep, h, entryCountsSuccess]
  | false =>
      cases h2 : (triggerSelfHealing (e 0)).recovered with
      | true => simp [runStep, h, h2, entryCountsSuccess]
      | false => simp [runStep, h, h2, entryCountsSuccess]

theorem execStepsFrom_all_entries (exec : Nat → Nat → StepResult) :
    ∀ n i, (execStepsFrom exec i n).all entryCountsSuccess
      = ((List.range' i n).all fun j => (exec j 0).success) := by
  intro n
  induction n with
  | zero => intro i; rfl
  | succ n ih =>
      intro i
      simp [execStepsFrom, List.range', List.all_append, runStep_all_entries, ih]

theorem executeRecovery_recovered (plan : RecoveryAnalysis) :
    (executeRecovery plan).recovered = true :=
  rfl

/-! ## Claim theorems -/

/-- C1 (amended): the overall success reported by
`DeepAgents.execute_unlock_plan` is the AND over every step's first-attempt
result, *including* first attempts that were superseded by a successful
retry: a step whose first attempt fails makes the reported success false
even when its single retry succeeds (the failed first attempt stays in the
aggregated list; only the wrapped retry entries are excluded). -/
theorem executeUnlockPlan_success_eq_all_first_attempts
    (steps : List Step) (exec : Nat → Nat → StepResult) :
    (executeUnlockPlan steps exec).success
      = ((List.range steps.length).all fun i => (exec i 0).success) := by
  show (execStepsFrom exec 0 steps.length).all entryCountsSuccess = _
  rw [execStepsFrom_all_entries, List.range_eq_range']

/-- C1 (counterexample): a one-step plan whose first attempt fails with a
usb-kind error and whose retry succeeds.  The specification's rule (AND
over first attempts not superseded by a successful retry) yields `true`,
but the orchestrator reports `success = false`: the claimed equality fails
on this input. -/
theorem executeUnlockPlan_success_vs_spec_rule_example :
    (executeUnlockPlan [usbStep] usbFailThenPass).success = false
    ∧ specOverallSuccess [usbStep] usbFailThenPass = true := by
  decide

/-- C2: one orchestrator run dispatches each step at most twice - the
results recorded for the step at index `i` are exactly `runStep (exec i)`,
a list of at most two entries with at most one retry entry - and a retry
entry exists only when the first attempt failed, its failure was classified
as recoverable, and recovery execution reported `recovered = true`; the
retry is the result of the second dispatch of that same step. -/
theorem executeUnlockPlan_per_step_dispatch_bound
    (steps : List Step) (exec : Nat → Nat → StepResult) (i : Nat) :
    (executeUnlockPlan steps exec).detailed_results
      = execStepsFrom exec 0 steps.length
    ∧ (runStep (exec i)).length ≤ 2
    ∧ countRetries (runStep (exec i)) ≤ 1
    ∧ ∀ r, ResultEntry.retryEntry r ∈ runStep (exec i) →
        r = exec i 1
        ∧ (exec i 0).success = false
        ∧ (analyzeFailure (exec i 0)).can_recover = true
        ∧ (triggerSelfHealing (exec i 0)).recovered = true := by
  refine ⟨rfl, ?_, ?_, ?_⟩
  · cases h : (exec i 0).success with
    | true => simp [runStep, h]
    | false =>
        cases h2 : (triggerSelfHealing (exec i 0)).recovered with
        | true => simp [runStep, h, h2]
        | false => simp [runStep, h, h2]
  · cases h : (exec i 0).success with
    | true => simp [runStep, h, countRetries]
    | false =>
        cases h2 : (triggerSelfHealing (exec i 0)).recovered with
        | true => simp [runStep, h, h2, countRetries]
        | false => simp [runStep, h, h2, countRetries]
  · intro r hr
    cases h : (exec i 0).success with
    | true => simp [runStep, h] at hr
    | false =>
        cases h2 : (triggerSelfHealing (exec i 0)).recovered with
        | false => simp [runStep, h, h2] at hr
        | true =>
            simp [runStep, h, h2] at hr
            exact ⟨hr, rfl,
              triggerSelfHealing_recovered_imp_can_recover _ h2, rfl⟩

/-- C2 (witness): the bound instantiated on a one-step plan whose first
attempt fails with a usb-kind error and whose retry succeeds. -/
theorem executeUnlockPlan_per_step_dispatch_bound_witness :
    ({ success := true, error := "" } : StepResult) = usbFailThenPass 0 1
    ∧ (usbFailThenPass 0 0).success = false
    ∧ (analyzeFailure (usbFailThenPass 0 0)).can_recover = true
    ∧ (triggerSelfHealing (usbFailThenPass 0 0)).recovered = true :=
  (executeUnlockPlan_per_step_dispatch_bound [usbStep] usbFailThenPass 0).2.2.2
    { success := true, error := "" } (by decide)

/-- C3 (amended): for a first-attempt failure with a timeout-kind error
(matching no earlier classification branch), the self-healing classifier
`SelfHealingSystem._analyze_error` does return `communication_retry` with
confidence `0.90` and its executor does report `recovered = true`; but the
orchestrator issues *no* retry of the step, because
`DeepAgents.execute_unlock_plan` consults its own `_analyze_failure`, which
classifies only usb- and vulnerability-kind error texts as recoverable. -/
theorem timeout_error_classifier_vs_orchestrator
    (error_type context message : String)
    (hUSB : pyIn "USB" error_type = false)
    (husb : pyIn "usb" (pyLower message) = false)
    (hdriver : pyIn "driver" (pyLower message) = false)
    (hperm : pyIn "permission" (pyLower message) = false)
    (htimeout : pyIn "timeout" (pyLower message) = true)
    (hvuln : pyIn "vulnerability" (pyLower message) = false) :
    (analyzeError error_type context message).method = "communication_retry"
    ∧ (analyzeError error_type context message).confidence = 90
    ∧ (executeRecovery (analyzeError error_type context message)).recovered
        = true
    ∧ ∀ e : Nat → StepResult,
        e 0 = { success := false, error := message } →
        runStep e = [ResultEntry.plain (e 0)] := by
  have hAE : analyzeError error_type context message
      = { can_recover := true, method := "communication_retry",
          confidence := 90, estimated_time := "1 minute",
          manual_suggestions := [] } := by
    simp [analyzeError, hUSB, husb, hdriver, hperm, htimeout]
  refine ⟨by rw [hAE], by rw [hAE], executeRecovery_recovered _, ?_⟩
  intro e he
  simp [runStep, he, triggerSelfHealing, analyzeFailure, husb, hvuln]

/-- C3 (witness): the amended statement instantiated at the concrete error
`"operation timeout"` raised as a `TimeoutError`, with an oracle whose
first attempt fails with that message. -/
theorem timeout_error_classifier_vs_orchestrator_witness :
    (analyzeError "TimeoutError" "step_execution" "operation timeout").method
      = "communication_retry"
    ∧ (analyzeError "TimeoutError" "step_execution"
        "operation timeout").confidence = 90
    ∧ (executeRecovery (analyzeError "TimeoutError" "step_execution"
        "operation timeout")).recovered = true
    ∧ runStep timeoutFail = [ResultEntry.plain (timeoutFail 0)] := by
  have h := timeout_error_classifier_vs_orchestrator "TimeoutError"
    "step_execution" "operation timeout" (by decide) (by decide) (by decide)
    (by decide) (by decide) (by decide)
  exact ⟨h.1, h.2.1, h.2.2.1, h.2.2.2 timeoutFail rfl⟩

/-- C3 (counterexample): on a step failing with the timeout-kind error
`"operation timeout"`, the classifier and executor behave as claimed, but
the orchestrator records zero retries of the step, not exactly one. -/
theorem timeout_error_no_retry_example :
    (analyzeError "TimeoutError" "step_execution" "operation timeout").method
      = "communication_retry"
    ∧ (analyzeError "TimeoutError" "step_execution"
        "operation timeout").confidence = 90
    ∧ (executeRecovery (analyzeError "TimeoutError" "step_execution"
        "operation timeout")).recovered = true
    ∧ countRetries (runStep timeoutFail) = 0 := by
  decide

/-- C4 (amended): plan creation never fails on a malformed analysis - there
is no `InvalidAnalysis` error path anywhere in the planner - and for every
device analysis lacking the detected-lock list it returns a plan whose
strategy is silently defaulted to `DIRECT_BYPASS`. -/
theorem createUnlockPlan_missing_locks_defaults (device_id : String)
    (a : DeviceAnalysis) (h : a.locks = none) :
    (createUnlockPlan device_id a).strategy = UnlockStrategy.direct_bypass := by
  simp [createUnlockPlan, selectOptimalStrategy, h]

/-- C4 (witness): the silent default instantiated on an analysis with a
manufacturer but no lock list. -/
theorem createUnlockPlan_missing_locks_defaults_witness :
    (createUnlockPlan "device_42" analysisNoLocks).strategy
      = UnlockStrategy.direct_bypass :=
  createUnlockPlan_missing_locks_defaults "device_42" analysisNoLocks rfl

/-- C4 (counterexample): on an analysis lacking both required fields, plan
creation does not fail fast with an `InvalidAnalysis` error; it returns a
plan whose strategy was silently defaulted to `DIRECT_BYPASS` - exactly
what the claim says must not happen. -/
theorem createUnlockPlan_silent_default_example :
    (createUnlockPlan "device_1" analysisMissingFields).strategy
      = UnlockStrategy.direct_bypass := by
  decide

/-- C5: whenever the detected locks contain `bootloader_lock` and the
lowercased manufacturer is `samsung`, strategy selection returns
`BOOTLOADER_ACCESS`, regardless of which other locks are present (the rule
list is evaluated in order and this is its first rule). -/
theorem selectOptimalStrategy_bootloader_samsung (a : DeviceAnalysis)
    (hlock : (a.locks.getD []).contains "bootloader_lock" = true)
    (hman : pyLower (a.manufacturer.getD "") = "samsung") :
    selectOptimalStrategy a = UnlockStrategy.bootloader_access := by
  have hmem : "bootloader_lock" ∈ a.locks.getD [] := by
    simpa using hlock
  simp [selectOptimalStrategy, hman, hmem]

/-- C5 (witness): the rule instantiated on a mixed-case `Samsung` analysis
that also carries `frp_lock` and `icloud_lock`. -/
theorem selectOptimalStrategy_bootloader_samsung_witness :
    selectOptimalStrategy analysisSamsungMixed
      = UnlockStrategy.bootloader_access :=
  selectOptimalStrategy_bootloader_samsung analysisSamsungMixed
    (by decide) (by decide)

/-- C6: for every device analysis, the selected primary strategy appears
neither among the prepared fallback strategies nor among the alternatives
returned by `get_alternatives`. -/
theorem primary_not_among_fallbacks_or_alternatives (a : DeviceAnalysis) :
    (∀ f ∈ prepareFallbackStrategies a,
       f.strategy ≠ selectOptimalStrategy a)
    ∧ ∀ alt ∈ getAlternatives a, alt.strategy ≠ selectOptimalStrategy a := by
  constructor
  · intro f hf
    rw [prepareFallbackStrategies_eq] at hf
    obtain ⟨s, hs, rfl⟩ := List.mem_map.mp hf
    exact mem_take_two_filter_ne _ _ hs
  · intro alt halt
    rw [getAlternatives_eq] at halt
    obtain ⟨s, hs, rfl⟩ := List.mem_map.mp halt
    exact mem_erase_allStrategies_ne _ _ hs

/-- C6 (witness): the invariant instantiated on the Scenario-A analysis and
its first fallback entry. -/
theorem primary_not_among_fallbacks_or_alternatives_witness :
    (fallbackDirectBypass.strategy
      == selectOptimalStrategy analysisSamsungBootloader) = false := by
  have h := (primary_not_among_fallbacks_or_alternatives
    analysisSamsungBootloader).1 fallbackDirectBypass (by decide)
  exact beq_eq_false_iff_ne.mpr h

/-- C7 (amended): fallback preparation keeps at most two entries - but it
truncates the non-primary strategies to the first two in enumeration order
*before* sorting - and `get_alternatives` computes a success probability
for every strategy except the primary and returns *all five* of them
(not at most two), sorted descending by success probability. -/
theorem fallbacks_and_alternatives_shape (a : DeviceAnalysis) :
    (prepareFallbackStrategies a).length ≤ 2
    ∧ descPairs (fun f => f.success_probability)
        (prepareFallbackStrategies a) = true
    ∧ (getAlternatives a).length = 5
    ∧ descPairs (fun alt => alt.success_probability)
        (getAlternatives a) = true
    ∧ ∀ s : UnlockStrategy, s ≠ selectOptimalStrategy a →
        s ∈ (getAlternatives a).map fun alt => alt.strategy := by
  refine ⟨?_, ?_, ?_, ?_, ?_⟩
  · rw [prepareFallbackStrategies_eq, List.length_map]
    exact length_take_two_filter_ne _
  · rw [prepareFallbackStrategies_eq]
    apply descPairs_of_key_eq _ 70
    intro y hy
    obtain ⟨s, -, rfl⟩ := List.mem_map.mp hy
    rfl
  · rw [getAlternatives_eq, List.length_map]
    exact length_erase_allStrategies _
  · rw [getAlternatives_eq]
    apply descPairs_of_key_eq _ 70
    intro y hy
    obtain ⟨s, -, rfl⟩ := List.mem_map.mp hy
    rfl
  · intro s hs
    rw [getAlternatives_eq, List.map_map]
    exact List.mem_map.mpr ⟨s, mem_erase_allStrategies_of_ne _ _ hs, rfl⟩

/-- C7 (witness): the shape facts instantiated on the Scenario-A analysis,
with `CUSTOM_TOOL` as a concrete non-primary strategy that appears among
the alternatives. -/
theorem fallbacks_and_alternatives_shape_witness :
    (prepareFallbackStrategies analysisSamsungBootloader).length ≤ 2
    ∧ (getAlternatives analysisSamsungBootloader).length = 5
    ∧ UnlockStrategy.custom_tool
        ∈ (getAlternatives analysisSamsungBootloader).map
            fun alt => alt.strategy := by
  have h := fallbacks_and_alternatives_shape analysisSamsungBootloader
  exact ⟨h.1, h.2.2.1, h.2.2.2.2 .custom_tool (by decide)⟩

/-- C7 (counterexample): on the analysis produced by the stubbed analysis
source, `get_alternatives` returns five entries, not at most two. -/
theorem getAlternatives_returns_five_example :
    (getAlternatives analysisEmptyDicts).length = 5 := by
  decide

/-- C8 (amended): `DeepAgent.execute_task` never inspects the worker's
current status - it executes the submitted task no matter what state the
worker is in, with no busy rejection - and it leaves the status at
`"completed"` on success or `"error"` on failure, never restoring
`"idle"`. -/
theorem executeTask_always_executes_and_never_idles
    (statusBefore : String) (performOk : Bool) :
    (executeTask statusBefore performOk).executed = true
    ∧ (executeTask statusBefore performOk).status
        = (if performOk then "completed" else "error")
    ∧ ((executeTask statusBefore performOk).status == "idle") = false := by
  cases performOk <;> exact ⟨rfl, rfl, rfl⟩

/-- C8 (counterexample): a worker whose status is `"working"` still executes
a newly submitted step (no busy signal) and finishes with status
`"completed"`, not back at `"idle"`. -/
theorem executeTask_busy_worker_executes_example :
    (executeTask "working" true).executed = true
    ∧ (executeTask "working" true).status = "completed"
    ∧ ((executeTask "working" true).status == "idle") = false := by
  decide

/-- C9: evaluating the planner at the Scenario-A analysis (manufacturer
`samsung`, locks `[bootloader_lock]`): the strategy is `BOOTLOADER_ACCESS`
as specified, but the generated step sequence - and hence the plan's
`steps` field - is empty, violating the non-empty-steps invariant (every
step generator in the source is a stub returning `[]`). -/
theorem bootloader_plan_steps_empty :
    selectOptimalStrategy analysisSamsungBootloader
      = UnlockStrategy.bootloader_access
    ∧ generateUnlockSteps analysisSamsungBootloader = []
    ∧ (createUnlockPlan "device_1" analysisSamsungBootloader).steps = [] := by
  decide

/-- C10: for every error type, context and message, the self-healing
classifier reports `can_recover = true` (the catch-all branch assigns
`generic_retry` with confidence `0.50`), so `handle_error` always executes
a recovery and its `"No automatic recovery method available"` branch is
unreachable. -/
theorem analyzeError_always_recoverable (error_type context message : String) :
    (analyzeError error_type context message).can_recover = true
    ∧ isNoMethod (handleError error_type context message) = false := by
  have h : (analyzeError error_type context message).can_recover = true := by
    rw [analyzeError]
    split_ifs <;> rfl
  refine ⟨h, ?_⟩
  simp [handleError, h, isNoMethod]

end PhoneUnlock
